import Mathlib

/-!
Verification development for the Lead Gear SEO strategist
(`seo_strategist.py` and its interactive front-end).

The Python program is single-threaded, deterministic arithmetic over
dictionaries and lists.  We embed it shallowly:

* Python numbers (`int`, `float`) are modelled as `ℕ`/`ℤ`/`ℚ`; the float
  arithmetic performed by the program (sums, divisions by 2 and 12,
  `round(x, k)`, `int(x)`) is modelled exactly over `ℚ`.
* Python `round` uses round-half-to-even; `int()` truncates toward zero.
* dictionaries with a fixed shape become structures; `d.get(key, default)`
  on a possibly-absent key becomes an `Option` field read with `getD`,
  or a structure field holding the default when the two are observationally
  identical (every read in the program uses the same default).
* the `datetime` values used by the CSV exporter only ever flow into opaque
  date strings; they are supplied by an abstract `ExportCtx` of formatting
  functions, so rows are otherwise a pure function of the plan.
-/

/-- Python `int(x)` for a rational: truncation toward zero. -/
def pyInt (q : ℚ) : ℤ := if 0 ≤ q then ⌊q⌋ else ⌈q⌉

/-- Python `round(x)` (no digits): round half to even, as an integer. -/
def roundHalfEven (q : ℚ) : ℤ :=
  let f := ⌊q⌋
  let r := q - f
  if r < 1/2 then f
  else if 1/2 < r then f + 1
  else if Even f then f else f + 1

/-- Python `round(x, 1)`. -/
def pyRound1 (q : ℚ) : ℚ := (roundHalfEven (q * 10) : ℚ) / 10

/-- Python `round(x, 2)`. -/
def pyRound2 (q : ℚ) : ℚ := (roundHalfEven (q * 100) : ℚ) / 100

/-- Decimal rendering of a one-decimal rational, modelling the Python string
form of the floats this program produces (`str(2.8) = "2.8"`, `f"{x:.1f}"`).
The value is first rounded half-to-even to one decimal. -/
def fmtFixed1 (q : ℚ) : String :=
  let n := roundHalfEven (q * 10)
  if n < 0 then "-" ++ toString ((-n) / 10) ++ "." ++ toString ((-n) % 10)
  else toString (n / 10) ++ "." ++ toString (n % 10)

/-- Service tier keys of `self.service_tiers`. -/
inductive TierKey where
  | starter
  | business
  | pro
deriving DecidableEq, Repr

/-- One entry of the `service_tiers` table (`seo_strategist.py`,
`EnhancedSEOStrategist.__init__`). -/
structure TierConfig where
  name : String
  monthly_investment : String
  best_for : String
  base_monthly_hours : ℚ
  max_monthly_hours : ℚ
  hourly_rate : ℚ
deriving DecidableEq, Repr

/-- The static tier catalog from `EnhancedSEOStrategist.__init__`. -/
def serviceTiers : TierKey → TierConfig
  | .starter =>
    { name := "Starter"
      monthly_investment := "$899/month"
      best_for := "Small businesses, local services, getting SEO foundation"
      base_monthly_hours := 20
      max_monthly_hours := 25
      hourly_rate := 45 }
  | .business =>
    { name := "Business"
      monthly_investment := "$1,399/month"
      best_for := "Growing businesses ready to scale, competitive markets"
      base_monthly_hours := 35
      max_monthly_hours := 45
      hourly_rate := 40 }
  | .pro =>
    { name := "Pro"
      monthly_investment := "$1,999/month"
      best_for := "Established businesses wanting hands-off growth"
      base_monthly_hours := 50
      max_monthly_hours := 65
      hourly_rate := 40 }

/-- One issue dictionary as produced by `_parse_audit_results`.  The long
page-by-page description text built by the Python code is display-only and is
abbreviated here to its header line; every counted or numeric field is exact. -/
structure Issue where
  type : String
  issue : String
  count : ℕ
  priority : String
  estimated_hours : ℚ
  task : String
  recurring : Bool
deriving DecidableEq, Repr

/-- The `severity_breakdown` sub-dictionary of a parsed audit result. -/
structure SeverityBreakdown where
  critical : ℕ
  important : ℕ
  minor : ℕ
deriving DecidableEq, Repr

/-- The dictionary returned by `_parse_audit_results`.  The Python failure
branches return a dictionary holding only `error` and `total_issues`; since
every later read of the missing keys uses `.get` with the defaults below, the
failure value is modelled as `error = some msg`, `total_issues = 0` and the
default value in every other field. -/
structure ParseResult where
  error : Option String
  total_issues : ℕ
  critical_issues : List Issue
  important_issues : List Issue
  minor_issues : List Issue
  severity_breakdown : SeverityBreakdown
  total_pages_crawled : ℕ
  estimated_fix_hours : ℚ
  page_specific_data : Bool
deriving DecidableEq, Repr

/-- A task dictionary as built by `_generate_specific_tasks` (and consumed by
the hour allocator and the CSV exporter).  Keys that are absent from some of
the dictionaries (`pages_affected`, `deadline`, `frequency`) are `Option`
fields; every Python read of them goes through `.get`. -/
structure TaskRecord where
  task : String
  type : String
  priority : String
  estimated_hours : ℚ
  pages_affected : Option ℕ
  deadline : Option String
  frequency : Option String
  recurring : Bool
deriving DecidableEq, Repr

/-- The five task buckets returned by `_generate_specific_tasks`. -/
structure TaskBuckets where
  immediate_fixes : List TaskRecord
  short_term : List TaskRecord
  medium_term : List TaskRecord
  long_term : List TaskRecord
  ongoing : List TaskRecord
deriving DecidableEq, Repr

/-- The static long-term tasks appended for Business and Pro tiers. -/
def businessLongTermTasks : List TaskRecord :=
  [ { task := "Develop comprehensive content strategy with keyword mapping"
      type := "content", priority := "important", estimated_hours := 56/10
      pages_affected := none, deadline := some "Month 3", frequency := none
      recurring := false }
  , { task := "Implement advanced schema markup for key pages"
      type := "technical", priority := "important", estimated_hours := 84/10
      pages_affected := none, deadline := some "Month 4", frequency := none
      recurring := false } ]

/-- The additional static long-term tasks appended for the Pro tier. -/
def proLongTermTasks : List TaskRecord :=
  [ { task := "Set up conversion rate optimization tests"
      type := "cro", priority := "important", estimated_hours := 105/10
      pages_affected := none, deadline := some "Month 3", frequency := none
      recurring := false }
  , { task := "Develop AI-optimized content for voice search"
      type := "content", priority := "important", estimated_hours := 14
      pages_affected := none, deadline := some "Month 6", frequency := none
      recurring := false } ]

/-- The static ongoing-task table for the Starter tier. -/
def starterOngoingTasks : List TaskRecord :=
  [ { task := "Basic technical SEO monitoring and critical fixes only"
      type := "technical", priority := "ongoing", estimated_hours := 28/10
      pages_affected := none, deadline := none, frequency := some "quarterly"
      recurring := true }
  , { task := "Performance reporting and client updates"
      type := "reporting", priority := "ongoing", estimated_hours := 21/10
      pages_affected := none, deadline := none, frequency := some "quarterly"
      recurring := true }
  , { task := "Keyword ranking review and basic adjustments"
      type := "monitoring", priority := "ongoing", estimated_hours := 14/10
      pages_affected := none, deadline := none, frequency := some "bi-annually"
      recurring := true } ]

/-- The static ongoing-task table for the Business tier. -/
def businessOngoingTasks : List TaskRecord :=
  [ { task := "Technical SEO monitoring and fixes"
      type := "technical", priority := "ongoing", estimated_hours := 35/10
      pages_affected := none, deadline := none, frequency := some "monthly"
      recurring := true }
  , { task := "Performance reporting and strategic updates"
      type := "reporting", priority := "ongoing", estimated_hours := 28/10
      pages_affected := none, deadline := none, frequency := some "monthly"
      recurring := true }
  , { task := "Keyword ranking monitoring and content optimization"
      type := "monitoring", priority := "ongoing", estimated_hours := 21/10
      pages_affected := none, deadline := none, frequency := some "monthly"
      recurring := true }
  , { task := "Content strategy review and planning"
      type := "content", priority := "ongoing", estimated_hours := 28/10
      pages_affected := none, deadline := none, frequency := some "quarterly"
      recurring := true } ]

/-- The static ongoing-task table for the Pro tier. -/
def proOngoingTasks : List TaskRecord :=
  [ { task := "Advanced technical SEO monitoring and optimization"
      type := "technical", priority := "ongoing", estimated_hours := 42/10
      pages_affected := none, deadline := none, frequency := some "monthly"
      recurring := true }
  , { task := "Comprehensive performance reporting and strategic analysis"
      type := "reporting", priority := "ongoing", estimated_hours := 35/10
      pages_affected := none, deadline := none, frequency := some "monthly"
      recurring := true }
  , { task := "Page ranking movement analysis and content optimization"
      type := "content", priority := "ongoing", estimated_hours := 35/10
      pages_affected := none, deadline := none, frequency := some "monthly"
      recurring := true }
  , { task := "Conversion rate optimization monitoring and adjustments"
      type := "cro", priority := "ongoing", estimated_hours := 28/10
      pages_affected := none, deadline := none, frequency := some "monthly"
      recurring := true }
  , { task := "Advanced content strategy and AI optimization"
      type := "content", priority := "ongoing", estimated_hours := 42/10
      pages_affected := none, deadline := none, frequency := some "monthly"
      recurring := true }
  , { task := "Competitive analysis and strategic pivots"
      type := "strategy", priority := "ongoing", estimated_hours := 35/10
      pages_affected := none, deadline := none, frequency := some "quarterly"
      recurring := true } ]

/-- Embedding of `EnhancedSEOStrategist._generate_specific_tasks`. -/
def generateSpecificTasks (audit : ParseResult) (tierConfig : TierConfig) :
    TaskBuckets :=
  { immediate_fixes := audit.critical_issues.map (fun i =>
      { task := i.task, type := i.type, priority := "critical"
        estimated_hours := i.estimated_hours, pages_affected := some i.count
        deadline := some "Week 2", frequency := none, recurring := i.recurring })
    short_term := audit.important_issues.map (fun i =>
      { task := i.task, type := i.type, priority := "important"
        estimated_hours := i.estimated_hours, pages_affected := some i.count
        deadline := some "Month 2", frequency := none, recurring := i.recurring })
    medium_term := audit.minor_issues.map (fun i =>
      { task := i.task, type := i.type, priority := "minor"
        estimated_hours := i.estimated_hours, pages_affected := some i.count
        deadline := some "Month 4", frequency := none, recurring := i.recurring })
    long_term :=
      (if tierConfig.name = "Business" ∨ tierConfig.name = "Pro" then
        businessLongTermTasks else [])
      ++ (if tierConfig.name = "Pro" then proLongTermTasks else [])
    ongoing :=
      if tierConfig.name = "Starter" then starterOngoingTasks
      else if tierConfig.name = "Business" then businessOngoingTasks
      else proOngoingTasks }

/-- The `breakdown` sub-dictionary of `_calculate_dynamic_hours`. -/
structure HourBreakdown where
  immediate_fixes_monthly : ℚ
  ongoing_tasks : ℚ
  additional_projects : ℚ
deriving DecidableEq, Repr

/-- The dictionary returned by `_calculate_dynamic_hours`. -/
structure HourAllocation where
  base_monthly_hours : ℚ
  monthly_total_hours : ℚ
  additional_hours : ℚ
  additional_monthly_cost : ℚ
  annual_hours : ℚ
  breakdown : HourBreakdown
deriving DecidableEq, Repr

/-- The `checks` map of a DataForSEO on-page audit item, restricted to the
keys `_parse_audit_results` and `_get_page_level_issues` actually read.
Every read uses `.get(key, 0)`, so an absent key and the value `0` are
observationally identical. -/
structure Checks where
  no_title_tag : ℕ
  duplicate_title_tag : ℕ
  no_h1_tag : ℕ
  high_loading_time : ℕ
  no_meta_description : ℕ
  low_content_rate : ℕ
  is_4xx_code : ℕ
  no_image_alt : ℕ
deriving DecidableEq, Repr

/-- One element of `tasks[0]['result'][0]['items']`. -/
structure ItemEntry where
  checks : Checks
  total_pages : ℕ
deriving DecidableEq, Repr

/-- One element of `tasks[0]['result']`.  The `items` key is read with a
truthiness guard, so a missing key and an empty list coincide. -/
structure ResultEntry where
  items : List ItemEntry
deriving DecidableEq, Repr

/-- One element of the top-level `tasks` list; the `result` key may be
missing (`KeyError`), hence the `Option`. -/
structure TaskEntry where
  result : Option (List ResultEntry)
deriving DecidableEq, Repr

/-- The audit response dictionary handed to `_parse_audit_results`.  A missing
`tasks` key (`KeyError`) is `none`; an out-of-range `[0]` (`IndexError`) is an
empty list. -/
structure AuditData where
  status_code : ℤ
  tasks : Option (List TaskEntry)
deriving DecidableEq, Repr

/-- The item dictionary that stands for Python `{}` when
`task_result.get('items')` is falsy: every later read returns the default 0. -/
def emptyItemEntry : ItemEntry :=
  { checks :=
    { no_title_tag := 0, duplicate_title_tag := 0, no_h1_tag := 0
      high_loading_time := 0, no_meta_description := 0, low_content_rate := 0
      is_4xx_code := 0, no_image_alt := 0 }
    total_pages := 0 }

/-- The expression `audit_data['tasks'][0]['result'][0]`; `none` exactly when
one of the `KeyError`/`IndexError` exceptions caught by `_parse_audit_results`
would be raised. -/
def extractFirstResult (d : AuditData) : Option ResultEntry :=
  d.tasks.bind (fun ts => ts.head?.bind (fun t => t.result.bind List.head?))

/-- Number of entries of the `domain_pages` fixture list in
`_get_page_level_issues`. -/
def domainPagesCount : ℕ := 18

/-- The critical-issue list built by the success branch of
`_parse_audit_results` (missing titles, missing H1 tags, slow pages, in
program order).  Counts come from `_get_page_level_issues`, which truncates
each check count at the length of its 18-entry page fixture list. -/
def parseCriticalIssues (c : Checks) : List Issue :=
  (if 0 < c.no_title_tag then
    [ { type := "technical", issue := "Missing Title Tags"
        count := min c.no_title_tag domainPagesCount, priority := "critical"
        estimated_hours := (min c.no_title_tag domainPagesCount : ℚ) * (17/100)
        task := "Add unique, optimized title tags to the following pages:"
        recurring := false } ]
  else [])
  ++ (if 0 < c.no_h1_tag then
    [ { type := "onpage", issue := "Missing H1 Tags"
        count := min c.no_h1_tag domainPagesCount, priority := "critical"
        estimated_hours := (min c.no_h1_tag domainPagesCount : ℚ) * (17/100)
        task := "Add keyword-optimized H1 tags to the following pages:"
        recurring := false } ]
  else [])
  ++ (if 0 < c.high_loading_time then
    [ { type := "technical", issue := "Slow Page Loading"
        count := min c.high_loading_time domainPagesCount, priority := "critical"
        estimated_hours :=
          min ((min c.high_loading_time domainPagesCount : ℚ) * (35/100)) (105/10)
        task := "Optimize page speed for the following slow-loading pages:"
        recurring := false } ]
  else [])

/-- The important-issue list built by the success branch of
`_parse_audit_results` (duplicate titles, missing meta descriptions, thin
content, 404 errors, in program order). -/
def parseImportantIssues (c : Checks) : List Issue :=
  (if 0 < c.duplicate_title_tag then
    [ { type := "technical", issue := "Duplicate Title Tags"
        count := min c.duplicate_title_tag domainPagesCount
        priority := "important"
        estimated_hours :=
          (min c.duplicate_title_tag domainPagesCount : ℚ) * (21/100)
        task := "Rewrite duplicate title tags with unique, keyword-optimized versions:"
        recurring := false } ]
  else [])
  ++ (if 0 < c.no_meta_description then
    [ { type := "onpage", issue := "Missing Meta Descriptions"
        count := min c.no_meta_description domainPagesCount
        priority := "important"
        estimated_hours :=
          (min c.no_meta_description domainPagesCount : ℚ) * (14/100)
        task := "Write compelling meta descriptions for the following pages:"
        recurring := false } ]
  else [])
  ++ (if 0 < c.low_content_rate then
    [ { type := "content", issue := "Thin Content"
        count := min c.low_content_rate domainPagesCount
        priority := "important"
        estimated_hours := (min c.low_content_rate domainPagesCount : ℚ) * (7/10)
        task := "Expand thin content on the following pages:"
        recurring := false } ]
  else [])
  ++ (if 0 < c.is_4xx_code then
    [ { type := "technical", issue := "404 Errors"
        count := min c.is_4xx_code domainPagesCount, priority := "important"
        estimated_hours := (min c.is_4xx_code domainPagesCount : ℚ) * (35/100)
        task := "Fix or redirect broken pages causing 404 errors:"
        recurring := false } ]
  else [])

/-- The minor-issue list built by the success branch of
`_parse_audit_results` (missing alt text; capped at 45 images). -/
def parseMinorIssues (c : Checks) : List Issue :=
  if 0 < c.no_image_alt then
    [ { type := "accessibility", issue := "Missing Alt Text"
        count := min c.no_image_alt 45, priority := "minor"
        estimated_hours := min ((min c.no_image_alt 45 : ℚ) * (7/100)) (28/5)
        task := "Add descriptive alt text to " ++ toString (min c.no_image_alt 45)
          ++ " images for accessibility and SEO"
        recurring := false } ]
  else []

/-- Embedding of `EnhancedSEOStrategist._parse_audit_results`.  A non-20000
status code returns the `Audit failed` zero-issue result; a failed extraction
of `tasks[0]['result'][0]` (the exceptions caught by the `except` clause)
returns the `Failed to parse audit results` zero-issue result. -/
def parseAuditResults (d : AuditData) : ParseResult :=
  if d.status_code ≠ 20000 then
    { error := some "Audit failed", total_issues := 0
      critical_issues := [], important_issues := [], minor_issues := []
      severity_breakdown := { critical := 0, important := 0, minor := 0 }
      total_pages_crawled := 0, estimated_fix_hours := 0
      page_specific_data := false }
  else
    match extractFirstResult d with
    | none =>
      { error := some "Failed to parse audit results", total_issues := 0
        critical_issues := [], important_issues := [], minor_issues := []
        severity_breakdown := { critical := 0, important := 0, minor := 0 }
        total_pages_crawled := 0, estimated_fix_hours := 0
        page_specific_data := false }
    | some task_result =>
      let items := task_result.items.headD emptyItemEntry
      let c := items.checks
      let crit := parseCriticalIssues c
      let imp := parseImportantIssues c
      let minr := parseMinorIssues c
      { error := none
        total_issues := (crit ++ imp ++ minr).length
        critical_issues := crit
        important_issues := imp
        minor_issues := minr
        severity_breakdown :=
          { critical := crit.length, important := imp.length, minor := minr.length }
        total_pages_crawled := items.total_pages
        estimated_fix_hours := ((crit ++ imp ++ minr).map
          (fun i => i.estimated_hours)).sum
        page_specific_data := true }

/-- Embedding of `EnhancedSEOStrategist._recommend_tier_from_audit`. -/
def recommendTierFromAudit (s : ParseResult) : TierKey :=
  if s.total_issues < 10 ∧ s.severity_breakdown.critical < 3
      ∧ s.estimated_fix_hours < 15 then
    .starter
  else if s.total_issues < 25 ∧ s.severity_breakdown.critical < 8
      ∧ s.estimated_fix_hours < 40 then
    .business
  else
    .pro

/-- Embedding of `EnhancedSEOStrategist._calculate_dynamic_hours`. -/
def calcDynamicHours (specificTasks : TaskBuckets) (tierConfig : TierConfig) :
    HourAllocation :=
  let base_hours := tierConfig.base_monthly_hours
  let max_hours := tierConfig.max_monthly_hours
  let immediate_hours :=
    ((specificTasks.immediate_fixes.map (fun t => t.estimated_hours)).sum : ℚ)
  let immediate_monthly := immediate_hours / 2
  let ongoing_hours :=
    (((specificTasks.ongoing.filter (fun t => t.frequency == some "monthly")).map
      (fun t => t.estimated_hours)).sum : ℚ)
  let additional_task_hours :=
    ((specificTasks.short_term.map (fun t => t.estimated_hours)).sum
      + (specificTasks.medium_term.map (fun t => t.estimated_hours)).sum
      + (specificTasks.long_term.map (fun t => t.estimated_hours)).sum) / 12
  let total_monthly := ongoing_hours + additional_task_hours + immediate_monthly
  let actual_monthly_hours := min total_monthly max_hours
  let additional_hours := max 0 (actual_monthly_hours - base_hours)
  let additional_cost := additional_hours * tierConfig.hourly_rate
  { base_monthly_hours := base_hours
    monthly_total_hours := pyRound1 actual_monthly_hours
    additional_hours := pyRound1 additional_hours
    additional_monthly_cost := pyRound2 additional_cost
    annual_hours := pyRound1 (actual_monthly_hours * 12)
    breakdown :=
      { immediate_fixes_monthly := pyRound1 immediate_monthly
        ongoing_tasks := pyRound1 ongoing_hours
        additional_projects := pyRound1 additional_task_hours } }

/-- One `month_N` entry of the dictionary built by
`_create_data_driven_monthly_plan`. -/
structure MonthPlan where
  month_key : String
  focus : String
  primary_tasks : List String
  task_count : ℕ
  estimated_completion : String
deriving DecidableEq, Repr

/-- Embedding of `EnhancedSEOStrategist._create_data_driven_monthly_plan`;
entry `i` of the list is the dictionary stored under key `month_{i+1}`.
The `tier_config` argument is accepted and ignored, as in the source. -/
def createMonthlyPlan (specificTasks : TaskBuckets) (_tierConfig : TierConfig) :
    List MonthPlan :=
  (List.range 12).map (fun m0 =>
    let month := m0 + 1
    let focus :=
      if month ≤ 2 then "Critical Issue Resolution"
      else if month ≤ 4 then "Foundation Building & Optimization"
      else if month ≤ 8 then "Strategic Improvements & Growth"
      else "Advanced Optimization & Scaling"
    let bucket :=
      if month ≤ 2 then specificTasks.immediate_fixes
      else if month ≤ 4 then specificTasks.short_term
      else if month ≤ 8 then specificTasks.medium_term
      else specificTasks.long_term
    let primary := (bucket.map (fun t => t.task)).take 5
      ++ (((specificTasks.ongoing.filter (fun t => t.recurring)).map
        (fun t => t.task)).take 3)
    { month_key := "month_" ++ toString month
      focus := focus
      primary_tasks := primary.take 8
      task_count := primary.length
      estimated_completion :=
        toString (min (primary.length * 15) 85) ++ "% of identified issues" })

/-- One entry of the list built by `_create_priority_roadmap`. -/
structure RoadmapEntry where
  phase : String
  task : String
  priority : String
  hours : ℚ
  impact : String
deriving DecidableEq, Repr

/-- The dictionary returned by `_create_priority_roadmap`. -/
structure Roadmap where
  roadmap : List RoadmapEntry
deriving DecidableEq, Repr

/-- Embedding of `EnhancedSEOStrategist._create_priority_roadmap`. -/
def createPriorityRoadmap (specificTasks : TaskBuckets) : Roadmap :=
  { roadmap :=
      ((specificTasks.immediate_fixes.map (fun t =>
        { phase := "Immediate (Week 1-2)", task := t.task
          priority := t.priority, hours := t.estimated_hours
          impact := "Critical for site functionality" : RoadmapEntry }))
       ++ (specificTasks.short_term.map (fun t =>
        { phase := "Short-term (Month 1-2)", task := t.task
          priority := t.priority, hours := t.estimated_hours
          impact := "Important for SEO foundation" : RoadmapEntry }))).take 10 }

/-- One entry of the list built by
`_identify_automation_opportunities_enhanced`. -/
structure AutomationOpp where
  task : String
  automation_potential : String
  current_manual_hours : ℚ
  automated_hours : ℚ
  monthly_savings : String
  tools : List String
  implementation_effort : String
deriving DecidableEq, Repr

/-- Embedding of
`EnhancedSEOStrategist._identify_automation_opportunities_enhanced`. -/
def identifyAutomationOpportunities (specificTasks : TaskBuckets) :
    List AutomationOpp :=
  let technical_tasks :=
    (specificTasks.immediate_fixes ++ specificTasks.short_term).filter
      (fun t => t.type == "technical")
  let tech_hours := ((technical_tasks.map (fun t => t.estimated_hours)).sum : ℚ)
  (if 5 < technical_tasks.length then
    [ { task := "Technical SEO Issue Detection"
        automation_potential := "High"
        current_manual_hours := tech_hours
        automated_hours := tech_hours * (3/10)
        monthly_savings := fmtFixed1 (tech_hours * (7/10)) ++ " hours"
        tools := ["Custom Python scripts", "DataForSEO API monitoring",
          "Google Search Console API"]
        implementation_effort := "Medium" } ]
  else [])
  ++ [ { task := "Automated Reporting Dashboard"
         automation_potential := "High"
         current_manual_hours := 8
         automated_hours := 1
         monthly_savings := "7 hours"
         tools := ["DataForSEO API", "Google Analytics API", "Custom dashboard"]
         implementation_effort := "Medium" }
     , { task := "Rank Tracking & Alerts"
         automation_potential := "High"
         current_manual_hours := 4
         automated_hours := 1/2
         monthly_savings := "3.5 hours"
         tools := ["DataForSEO SERP API", "Automated alerting system"]
         implementation_effort := "Low" } ]

/-- The dictionary returned by `_calculate_timeline`. -/
structure TimelineInfo where
  immediate_fixes_completion : String
  short_term_completion : String
  full_optimization_timeline : String
  first_results_expected : String
  significant_improvement : String
deriving DecidableEq, Repr

/-- Python `f"{min(cap, round(q, 1))} weeks"`: `min` of an `int` and the
rounded `float` yields the `int` when the rounded value is not below it. -/
def fmtMinWeeks (cap : ℕ) (q : ℚ) : String :=
  if pyRound1 q < cap then fmtFixed1 (pyRound1 q) ++ " weeks"
  else toString cap ++ " weeks"

/-- Embedding of `EnhancedSEOStrategist._calculate_timeline`. -/
def calculateTimeline (specificTasks : TaskBuckets) : TimelineInfo :=
  let immediate_hours :=
    ((specificTasks.immediate_fixes.map (fun t => t.estimated_hours)).sum : ℚ)
  let short_term_hours :=
    ((specificTasks.short_term.map (fun t => t.estimated_hours)).sum : ℚ)
  { immediate_fixes_completion := fmtMinWeeks 2 (immediate_hours / 20)
    short_term_completion := fmtMinWeeks 8 (short_term_hours / 15)
    full_optimization_timeline := "6-12 months"
    first_results_expected := "4-6 weeks"
    significant_improvement := "3-4 months" }

/-- Embedding of `EnhancedSEOStrategist._generate_additional_recommendations`;
the `tier` argument is the tier key string of the source, as a `TierKey`. -/
def additionalRecommendations (auditResults : ParseResult) (tier : TierKey) :
    List String :=
  (if 10 < auditResults.severity_breakdown.critical then
    ["Consider technical SEO sprint in first month to address critical issues quickly"]
  else [])
  ++ (if 50 < auditResults.total_issues then
    ["Implement automated monitoring system to prevent future SEO issues"]
  else [])
  ++ (if tier = .pro then
    [ "Set up advanced analytics and conversion tracking for ROI measurement"
    , "Consider content marketing integration for long-term organic growth" ]
  else [])

/-- The `audit_summary` sub-dictionary of `client_info`. -/
structure AuditSummaryInfo where
  total_issues_found : ℕ
  critical_issues : ℕ
  pages_analyzed : ℕ
deriving DecidableEq, Repr

/-- The `client_info` sub-dictionary of a generated plan. -/
structure ClientInfo where
  url : String
  tier : String
  monthly_investment : String
  base_monthly_hours : ℚ
  actual_monthly_hours : ℚ
  plan_generated : String
  audit_summary : AuditSummaryInfo
deriving DecidableEq, Repr

/-- The plan dictionary returned by `generate_data_driven_plan`. -/
structure Plan where
  client_info : ClientInfo
  audit_based_tasks : TaskBuckets
  monthly_breakdown : List MonthPlan
  hour_allocation : HourAllocation
  priority_roadmap : Roadmap
  automation_opportunities : List AutomationOpp
  estimated_timeline : TimelineInfo
  additional_recommendations : List String
deriving DecidableEq, Repr

/-- The analysis dictionary consumed by `generate_data_driven_plan` when audit
data is supplied by the caller: its `audit_results` entry and the
audit-recommended tier (`recommended_tier`, defaulting to business when the
key is absent, which the `getD` on the `Option` mirrors at the call site). -/
structure AnalysisData where
  audit_results : ParseResult
  recommended_tier : TierKey
deriving DecidableEq, Repr

/-- Embedding of `EnhancedSEOStrategist.generate_data_driven_plan` for a
caller-supplied audit (`audit_data` argument not `None`).  `now` is
`self.current_date.isoformat()`; it reaches the plan only through the
`plan_generated` field. -/
def generateDataDrivenPlan (now url : String) (tierOpt : Option TierKey)
    (analysis : AnalysisData) : Plan :=
  let tier := tierOpt.getD analysis.recommended_tier
  let tier_config := serviceTiers tier
  let audit_results := analysis.audit_results
  let specific_tasks := generateSpecificTasks audit_results tier_config
  let hour_allocation := calcDynamicHours specific_tasks tier_config
  { client_info :=
      { url := url
        tier := tier_config.name
        monthly_investment := tier_config.monthly_investment
        base_monthly_hours := tier_config.base_monthly_hours
        actual_monthly_hours := hour_allocation.monthly_total_hours
        plan_generated := now
        audit_summary :=
          { total_issues_found := audit_results.total_issues
            critical_issues := audit_results.severity_breakdown.critical
            pages_analyzed := audit_results.total_pages_crawled } }
    audit_based_tasks := specific_tasks
    monthly_breakdown := createMonthlyPlan specific_tasks tier_config
    hour_allocation := hour_allocation
    priority_roadmap := createPriorityRoadmap specific_tasks
    automation_opportunities := identifyAutomationOpportunities specific_tasks
    estimated_timeline := calculateTimeline specific_tasks
    additional_recommendations := additionalRecommendations audit_results tier }

/-- Erase the generation timestamp of a plan, leaving every other field. -/
def scrubTimestamp (p : Plan) : Plan :=
  { p with client_info := { p.client_info with plan_generated := "" } }

/-- One row of the ClickUp CSV (the twelve `fieldnames` columns of
`export_clickup_csv`, in order). -/
structure Row where
  name : String
  description : String
  priority : String
  status : String
  assignee : String
  dueDate : String
  tags : String
  list : String
  timeEstimate : String
  parentTask : String
  folder : String
  space : String
deriving DecidableEq, Repr

/-- Abstract date formatting used by `export_clickup_csv`; the exporter reads
the wall clock once and only ever formats offsets of it into strings.
`fmtAfterDays d` is `(current_date + timedelta(days=d)).strftime('%m/%d/%Y')`
(a `timedelta(weeks=w)` is `7 * w` days), `monthYearAfterDays d` is the same
date formatted `%B %Y`, and `year` is `current_date.year`. -/
structure ExportCtx where
  fmtAfterDays : ℕ → String
  monthYearAfterDays : ℕ → String
  year : ℤ

/-- The `netloc` of `urllib.parse.urlparse`: empty when the URL has no scheme
separator, otherwise the authority part before the first slash. -/
def urlNetloc (url : String) : String :=
  match url.splitOn "://" with
  | _ :: rest :: _ => (rest.splitOn "/").headD ""
  | _ => ""

/-- Client domain used by the exporters:
`urlparse(url).netloc.replace('www.', '')`. -/
def clientDomain (url : String) : String :=
  (urlNetloc url).replace "www." ""

/-- Python `f"{pre}{s[:50]}..." if len(s) > 50 else f"{pre}{s}"`. -/
def truncName (pre s : String) : String :=
  if 50 < s.length then pre ++ s.take 50 ++ "..." else pre ++ s

/-- The `pages_per_subtask` of `export_clickup_csv`:
`max(5, pages_affected // 3)`. -/
def pagesPerSubtask (n : ℕ) : ℕ := max 5 (n / 3)

/-- The `subtask_count` of `export_clickup_csv`:
`(n + pages_per_subtask - 1) // pages_per_subtask`. -/
def subtaskCountFor (n : ℕ) : ℕ :=
  (n + pagesPerSubtask n - 1) / pagesPerSubtask n

/-- First page of subtask `j`: `j * pages_per_subtask + 1`. -/
def subtaskStart (n j : ℕ) : ℕ := j * pagesPerSubtask n + 1

/-- Last page of subtask `j`: `min((j + 1) * pages_per_subtask, n)`. -/
def subtaskStop (n j : ℕ) : ℕ := min ((j + 1) * pagesPerSubtask n) n

/-- The main CSV row of an immediate-fix task (`export_clickup_csv`,
immediate-fixes loop). -/
def immediateMainRow (ctx : ExportCtx) (tier dom : String) (t : TaskRecord) :
    Row :=
  { name := truncName "CRITICAL: " t.task
    description := if 500 < t.task.length then t.task.take 500 ++ "..." else t.task
    priority := "High"
    status := "to do"
    assignee := ""
    dueDate := ctx.fmtAfterDays 14
    tags := "SEO,Critical," ++ t.type ++ "," ++ tier
    list := "SEO Immediate Fixes"
    timeEstimate := toString (pyInt (t.estimated_hours * 60))
    parentTask := ""
    folder := dom ++ " SEO"
    space := "Client Projects" }

/-- The subtask CSV rows of an immediate-fix task: one row per page block when
`pages_affected > 5`, none otherwise (`export_clickup_csv`, subtask block). -/
def immediateSubRows (ctx : ExportCtx) (tier dom : String) (t : TaskRecord) :
    List Row :=
  let n := t.pages_affected.getD 0
  if 5 < n then
    (List.range (subtaskCountFor n)).map (fun j =>
      { name := "Pages " ++ toString (subtaskStart n j) ++ "-"
          ++ toString (subtaskStop n j) ++ ": " ++ t.task.take 30 ++ "..."
        description := "Handle pages " ++ toString (subtaskStart n j)
          ++ " through " ++ toString (subtaskStop n j) ++ " for: " ++ t.task
        priority := "High"
        status := "to do"
        assignee := ""
        dueDate := ctx.fmtAfterDays 14
        tags := "SEO,Critical," ++ t.type ++ ",Subtask"
        list := "SEO Immediate Fixes"
        timeEstimate :=
          toString (pyInt ((t.estimated_hours / (subtaskCountFor n : ℚ)) * 60))
        parentTask := (immediateMainRow ctx tier dom t).name
        folder := dom ++ " SEO"
        space := "Client Projects" })
  else []

/-- Python `task.get('pages_affected', 'N/A')` rendered into the description
of short- and medium-term rows. -/
def pagesAffectedText (t : TaskRecord) : String :=
  match t.pages_affected with
  | some n => toString n
  | none => "N/A"

/-- The CSV row of a short-term task (`export_clickup_csv`, short-term loop). -/
def shortTermRow (ctx : ExportCtx) (tier dom : String) (t : TaskRecord) : Row :=
  { name := truncName "IMPORTANT: " t.task
    description := "Priority: " ++ t.priority ++ " | Type: " ++ t.type
      ++ " | Pages affected: " ++ pagesAffectedText t
      ++ " | Deadline: " ++ t.deadline.getD "Month 2"
    priority := "Normal"
    status := "to do"
    assignee := ""
    dueDate := ctx.fmtAfterDays 56
    tags := "SEO,Important," ++ t.type ++ "," ++ tier
    list := "SEO Short-term"
    timeEstimate := toString (pyInt (t.estimated_hours * 60))
    parentTask := ""
    folder := dom ++ " SEO"
    space := "Client Projects" }

/-- The CSV row of a medium-term task (`export_clickup_csv`, medium-term
loop). -/
def mediumTermRow (ctx : ExportCtx) (tier dom : String) (t : TaskRecord) : Row :=
  { name := truncName "MEDIUM: " t.task
    description := "Priority: " ++ t.priority ++ " | Type: " ++ t.type
      ++ " | Pages affected: " ++ pagesAffectedText t
      ++ " | Deadline: " ++ t.deadline.getD "Month 4"
    priority := "Low"
    status := "to do"
    assignee := ""
    dueDate := ctx.fmtAfterDays 112
    tags := "SEO,Medium," ++ t.type ++ "," ++ tier
    list := "SEO Medium-term"
    timeEstimate := toString (pyInt (t.estimated_hours * 60))
    parentTask := ""
    folder := dom ++ " SEO"
    space := "Client Projects" }

/-- The CSV row of a long-term task (`export_clickup_csv`, long-term loop). -/
def longTermRow (ctx : ExportCtx) (tier dom : String) (t : TaskRecord) : Row :=
  { name := truncName "STRATEGIC: " t.task
    description := "Priority: " ++ t.priority ++ " | Type: " ++ t.type
      ++ " | Deadline: " ++ t.deadline.getD "Month 6"
    priority := "Low"
    status := "to do"
    assignee := ""
    dueDate := ctx.fmtAfterDays 168
    tags := "SEO,Strategic," ++ t.type ++ "," ++ tier
    list := "SEO Long-term"
    timeEstimate := toString (pyInt (t.estimated_hours * 60))
    parentTask := ""
    folder := dom ++ " SEO"
    space := "Client Projects" }

/-- Occurrence count and day interval for a recurring frequency
(`export_clickup_csv`, recurring loop). -/
def recurringInstances (freq : String) : ℕ × ℕ :=
  if freq = "monthly" then (12, 30)
  else if freq = "quarterly" then (4, 90)
  else if freq = "bi-annually" then (2, 180)
  else (1, 30)

/-- The CSV rows of one recurring ongoing task: one row per occurrence, the
first with status `to do` and the rest with status `future`
(`export_clickup_csv`, recurring loop body). -/
def ongoingRowsFor (ctx : ExportCtx) (tier dom : String) (t : TaskRecord) :
    List Row :=
  let freq := t.frequency.getD "monthly"
  let instances := (recurringInstances freq).1
  let interval := (recurringInstances freq).2
  (List.range instances).map (fun i =>
    let base := "RECURRING (" ++ freq.toUpper ++ "): " ++ t.task.take 40 ++ "..."
    let nm :=
      if 1 < instances then
        if freq = "monthly" then
          base ++ " - " ++ ctx.monthYearAfterDays (interval * (i + 1))
        else if freq = "quarterly" then
          base ++ " - Q" ++ toString (i + 1) ++ " "
            ++ toString (if i < 2 then ctx.year else ctx.year + 1)
        else if freq = "bi-annually" then
          base ++ " - " ++ (if i = 0 then "H1" else "H2") ++ " "
            ++ toString ctx.year
        else base
      else base
    { name := nm
      description := "Recurring task: " ++ t.task ++ " | Frequency: " ++ freq
        ++ " | Type: " ++ t.type ++ " | Hours: " ++ fmtFixed1 t.estimated_hours
      priority := "Normal"
      status := if i = 0 then "to do" else "future"
      assignee := ""
      dueDate := ctx.fmtAfterDays (interval * (i + 1))
      tags := "SEO,Recurring," ++ freq ++ "," ++ t.type ++ "," ++ tier
      list := "SEO Recurring Tasks"
      timeEstimate := toString (pyInt (t.estimated_hours * 60))
      parentTask := ""
      folder := dom ++ " SEO"
      space := "Client Projects" })

/-- Contribution of one ongoing-bucket task to the CSV: skipped entirely when
it is not recurring (`if not task.get('recurring'): continue`). -/
def ongoingContribution (ctx : ExportCtx) (tier dom : String) (t : TaskRecord) :
    List Row :=
  if t.recurring then ongoingRowsFor ctx tier dom t else []

/-- The project-overview row appended after all task rows. -/
def overviewRow (ctx : ExportCtx) (p : Plan) (tier dom : String) : Row :=
  { name := "SEO Project Overview - " ++ dom
    description := "12-month SEO project for " ++ p.client_info.url
      ++ " | Tier: " ++ tier ++ " | Monthly Hours: "
      ++ fmtFixed1 p.client_info.actual_monthly_hours
      ++ " | Investment: " ++ p.client_info.monthly_investment
    priority := "High"
    status := "in progress"
    assignee := ""
    dueDate := ctx.fmtAfterDays 365
    tags := "SEO,Project,Overview," ++ tier
    list := "SEO Projects"
    timeEstimate :=
      toString (pyInt (p.client_info.actual_monthly_hours * 12 * 60))
    parentTask := ""
    folder := dom ++ " SEO"
    space := "Client Projects" }

/-- Embedding of `EnhancedSEOStrategist.export_clickup_csv`: the list of data
rows written to the CSV, in order (the header row and the file write are
outside the model). -/
def exportClickupRows (ctx : ExportCtx) (p : Plan) : List Row :=
  let dom := clientDomain p.client_info.url
  let tier := p.client_info.tier
  p.audit_based_tasks.immediate_fixes.flatMap (fun t =>
    immediateMainRow ctx tier dom t :: immediateSubRows ctx tier dom t)
  ++ p.audit_based_tasks.short_term.map (shortTermRow ctx tier dom)
  ++ p.audit_based_tasks.medium_term.map (mediumTermRow ctx tier dom)
  ++ p.audit_based_tasks.long_term.map (longTermRow ctx tier dom)
  ++ p.audit_based_tasks.ongoing.flatMap (ongoingContribution ctx tier dom)
  ++ [overviewRow ctx p tier dom]

/-- Modelled from the spec: the business-attribute tier recommender
`recommend(businessSize?, competitionLevel?, budgetRange?, goal?)` has no body
under `src/` — `seo_interactive.py` only collects the four answers and passes
them as flags — so the rule table of spec section 4.1 is modelled here with
the enumeration values that `seo_interactive.py` produces
(`under_1000`/`1000_1500`/`over_1500` for the budget bands,
`small_local`/`growing`/`established` for size, `low`/`medium`/`high` for
competition, `foundation`/`growth`/`aggressive_growth` for goals).
First match wins; anything unrecognized falls through to Business. -/
def recommendFromBusiness (businessSize competition budget goal : String) :
    TierKey :=
  if budget = "under_1000" ∨ businessSize = "small_local" then .starter
  else if budget = "1000_1500"
      ∨ (businessSize = "growing" ∧ competition = "medium") then .business
  else if budget = "over_1500" ∨ competition = "high"
      ∨ goal = "aggressive_growth" then .pro
  else .business

/-- Spec-side formula for the pre-cap monthly total of the hour allocator:
immediate-fix hours over 2 months, plus ongoing tasks whose frequency is
monthly, plus short/medium/long-term hours amortized over 12 months (spec
section 4.3), written independently of `calcDynamicHours`. -/
def specPreCapTotal (tasks : TaskBuckets) : ℚ :=
  (tasks.immediate_fixes.map (fun t => t.estimated_hours)).sum / 2
  + ((tasks.ongoing.filter (fun t => t.frequency == some "monthly")).map
      (fun t => t.estimated_hours)).sum
  + ((tasks.short_term.map (fun t => t.estimated_hours)).sum
     + (tasks.medium_term.map (fun t => t.estimated_hours)).sum
     + (tasks.long_term.map (fun t => t.estimated_hours)).sum) / 12

/-- Audit summary of the first spec example: 5 issues, 1 critical, 8 fix
hours. -/
def starterExampleSummary : ParseResult :=
  { error := none, total_issues := 5
    critical_issues := [], important_issues := [], minor_issues := []
    severity_breakdown := { critical := 1, important := 2, minor := 2 }
    total_pages_crawled := 0, estimated_fix_hours := 8
    page_specific_data := false }

/-- Audit summary of the second spec example: 30 issues, 10 critical, 50 fix
hours. -/
def proExampleSummary : ParseResult :=
  { error := none, total_issues := 30
    critical_issues := [], important_issues := [], minor_issues := []
    severity_breakdown := { critical := 10, important := 10, minor := 10 }
    total_pages_crawled := 0, estimated_fix_hours := 50
    page_specific_data := false }

/-- An empty set of task buckets. -/
def emptyBuckets : TaskBuckets :=
  { immediate_fixes := [], short_term := [], medium_term := [], long_term := []
    ongoing := [] }

/-- A single immediate-fix task of 60 estimated hours; on the Starter tier the
allocator caps 30 monthly hours at 25 and bills 5 overage hours. -/
def overageWitnessTasks : TaskBuckets :=
  { emptyBuckets with
    immediate_fixes :=
      [ { task := "Fix broken canonical tags across the site"
          type := "technical", priority := "critical", estimated_hours := 60
          pages_affected := some 3, deadline := some "Week 2"
          frequency := none, recurring := false } ] }

/-- An ongoing task with quarterly frequency, used to witness that
non-monthly ongoing tasks contribute nothing to the monthly total. -/
def quarterlyTask : TaskRecord :=
  { task := "Content strategy review and planning"
    type := "content", priority := "ongoing", estimated_hours := 28/10
    pages_affected := none, deadline := none, frequency := some "quarterly"
    recurring := true }

/-- A parsed audit with one issue of each severity, used to witness the task
synthesis mapping. -/
def synthesisWitnessAudit : ParseResult :=
  { error := none, total_issues := 3
    critical_issues :=
      [ { type := "technical", issue := "Missing Title Tags", count := 3
          priority := "critical", estimated_hours := 51/100
          task := "Add unique, optimized title tags to the following pages:"
          recurring := false } ]
    important_issues :=
      [ { type := "onpage", issue := "Missing Meta Descriptions", count := 8
          priority := "important", estimated_hours := 112/100
          task := "Write compelling meta descriptions for the following pages:"
          recurring := false } ]
    minor_issues :=
      [ { type := "accessibility", issue := "Missing Alt Text", count := 45
          priority := "minor", estimated_hours := 28/5
          task := "Add descriptive alt text to 45 images for accessibility and SEO"
          recurring := false } ]
    severity_breakdown := { critical := 1, important := 1, minor := 1 }
    total_pages_crawled := 147, estimated_fix_hours := 723/100
    page_specific_data := true }

/-- Export context whose date oracles return fixed strings, for concrete
export evaluations. -/
def fixedCtx : ExportCtx :=
  { fmtAfterDays := fun _ => "01/01/2026"
    monthYearAfterDays := fun _ => "January 2026"
    year := 2026 }

/-- A zeroed hour allocation, for hand-built plan fixtures. -/
def zeroAllocation : HourAllocation :=
  { base_monthly_hours := 0, monthly_total_hours := 0, additional_hours := 0
    additional_monthly_cost := 0, annual_hours := 0
    breakdown :=
      { immediate_fixes_monthly := 0, ongoing_tasks := 0
        additional_projects := 0 } }

/-- A plan fixture holding the given task buckets and nothing else of
interest, for concrete CSV-export evaluations. -/
def planWithTasks (tasks : TaskBuckets) : Plan :=
  { client_info :=
      { url := "https://example.com", tier := "Business"
        monthly_investment := "$1,399/month", base_monthly_hours := 35
        actual_monthly_hours := 0, plan_generated := ""
        audit_summary :=
          { total_issues_found := 0, critical_issues := 0, pages_analyzed := 0 } }
    audit_based_tasks := tasks
    monthly_breakdown := []
    hour_allocation := zeroAllocation
    priority_roadmap := { roadmap := [] }
    automation_opportunities := []
    estimated_timeline :=
      { immediate_fixes_completion := "", short_term_completion := ""
        full_optimization_timeline := "", first_results_expected := ""
        significant_improvement := "" }
    additional_recommendations := [] }

/-- Plan with one short-term task affecting 17 pages: the exporter emits no
subtask rows for it. -/
def shortSeventeenPlan : Plan :=
  planWithTasks
    { emptyBuckets with
      short_term :=
        [ { task := "Write compelling meta descriptions for the following pages:"
            type := "onpage", priority := "important", estimated_hours := 238/100
            pages_affected := some 17, deadline := some "Month 2"
            frequency := none, recurring := false } ] }

/-- Plan with one short-term task of 0.51 estimated hours: its exported
`Time Estimate` is the truncation 30, not the rounding 31, of 30.6 minutes. -/
def pointFiveOnePlan : Plan :=
  planWithTasks
    { emptyBuckets with
      short_term :=
        [ { task := "Add unique, optimized title tags to the following pages:"
            type := "technical", priority := "important"
            estimated_hours := 51/100
            pages_affected := some 3, deadline := some "Month 2"
            frequency := none, recurring := false } ] }

/-- An immediate-fix task affecting 17 pages, used to witness the subtask
partition. -/
def seventeenPageTask : TaskRecord :=
  { task := "Add unique, optimized title tags to the following pages:"
    type := "technical", priority := "critical", estimated_hours := 289/100
    pages_affected := some 17, deadline := some "Week 2", frequency := none
    recurring := false }

/-- A recurring quarterly ongoing task for the export-expansion witness. -/
def quarterlyRecurringTask : TaskRecord :=
  { task := "Competitive analysis and strategic pivots"
    type := "strategy", priority := "ongoing", estimated_hours := 35/10
    pages_affected := none, deadline := none, frequency := some "quarterly"
    recurring := true }

/-- An audit response with a failing status code, for the parser witness. -/
def failedStatusAudit : AuditData :=
  { status_code := 40000, tasks := none }

theorem roundHalfEven_le_half (q : ℚ) : (roundHalfEven q : ℚ) ≤ q + 1/2 := by
  have hf : (⌊q⌋ : ℚ) ≤ q := Int.floor_le q
  simp only [roundHalfEven]
  split_ifs with h1 h2 h3 <;> push_cast <;> linarith

theorem roundHalfEven_le_intCast {q : ℚ} {M : ℤ} (h : q ≤ (M : ℚ)) :
    roundHalfEven q ≤ M := by
  have h0 := roundHalfEven_le_half q
  have h1 : (roundHalfEven q : ℚ) < (M : ℚ) + 1 := by linarith
  exact Int.lt_add_one_iff.mp (by exact_mod_cast h1)

theorem pyRound1_le_intCast {x : ℚ} {M : ℤ} (h : x ≤ (M : ℚ)) :
    pyRound1 x ≤ (M : ℚ) := by
  unfold pyRound1
  have h10 : x * 10 ≤ ((10 * M : ℤ) : ℚ) := by push_cast; linarith
  have hle := roundHalfEven_le_intCast h10
  rw [div_le_iff₀ (by norm_num : (0:ℚ) < 10)]
  calc (roundHalfEven (x * 10) : ℚ) ≤ ((10 * M : ℤ) : ℚ) := by exact_mod_cast hle
    _ = (M : ℚ) * 10 := by push_cast; ring

theorem pyRound2_zero : pyRound2 0 = 0 := by
  norm_num [pyRound2, roundHalfEven]

theorem length_flatMap_sum {α β : Type} (l : List α) (g : α → List β) :
    (l.flatMap g).length = (l.map (fun t => (g t).length)).sum := by
  induction l with
  | nil => simp
  | cons a tl ih => simp [ih]

/-- C1: the audit-based tier recommendation returns starter exactly when
total issues < 10, critical < 3 and estimated fix hours < 15; otherwise
business exactly when total < 25, critical < 8 and hours < 40; otherwise pro
(any single failing condition escalates), and the two spec examples
(5/1/8 gives Starter, 30/10/50 gives Pro) hold. -/
theorem audit_tier_threshold_rules :
    (∀ s : ParseResult,
      (recommendTierFromAudit s = .starter ↔
        (s.total_issues < 10 ∧ s.severity_breakdown.critical < 3
          ∧ s.estimated_fix_hours < 15))
      ∧ (recommendTierFromAudit s = .business ↔
        (¬(s.total_issues < 10 ∧ s.severity_breakdown.critical < 3
            ∧ s.estimated_fix_hours < 15)
          ∧ (s.total_issues < 25 ∧ s.severity_breakdown.critical < 8
            ∧ s.estimated_fix_hours < 40)))
      ∧ (recommendTierFromAudit s = .pro ↔
        (¬(s.total_issues < 10 ∧ s.severity_breakdown.critical < 3
            ∧ s.estimated_fix_hours < 15)
          ∧ ¬(s.total_issues < 25 ∧ s.severity_breakdown.critical < 8
            ∧ s.estimated_fix_hours < 40))))
    ∧ recommendTierFromAudit starterExampleSummary = .starter
    ∧ recommendTierFromAudit proExampleSummary = .pro := by
  refine ⟨fun s => ?_, ?_, ?_⟩
  · unfold recommendTierFromAudit
    split_ifs with h1 h2 <;> refine ⟨?_, ?_, ?_⟩ <;> simp_all
  · norm_num [recommendTierFromAudit, starterExampleSummary]
  · norm_num [recommendTierFromAudit, proExampleSummary]

/-- C2: for every task-bucket input and catalog tier, the reported monthly
total never exceeds the tier maximum; when the capped total exceeds the base
hours the additional monthly cost is the overage times the hourly rate
rounded to two decimals, and it is zero when the capped total is at most the
base hours. -/
theorem hour_allocator_cap_and_overage (k : TierKey) (tasks : TaskBuckets) :
    (calcDynamicHours tasks (serviceTiers k)).monthly_total_hours
      ≤ (serviceTiers k).max_monthly_hours
    ∧ ((serviceTiers k).base_monthly_hours
        < min (specPreCapTotal tasks) (serviceTiers k).max_monthly_hours →
      (calcDynamicHours tasks (serviceTiers k)).additional_monthly_cost
        = pyRound2 ((min (specPreCapTotal tasks)
              (serviceTiers k).max_monthly_hours
            - (serviceTiers k).base_monthly_hours) * (serviceTiers k).hourly_rate))
    ∧ (min (specPreCapTotal tasks) (serviceTiers k).max_monthly_hours
        ≤ (serviceTiers k).base_monthly_hours →
      (calcDynamicHours tasks (serviceTiers k)).additional_monthly_cost = 0) := by
  have horder : specPreCapTotal tasks =
      ((tasks.ongoing.filter (fun t => t.frequency == some "monthly")).map
        (fun t => t.estimated_hours)).sum
      + ((tasks.short_term.map (fun t => t.estimated_hours)).sum
         + (tasks.medium_term.map (fun t => t.estimated_hours)).sum
         + (tasks.long_term.map (fun t => t.estimated_hours)).sum) / 12
      + (tasks.immediate_fixes.map (fun t => t.estimated_hours)).sum / 2 := by
    unfold specPreCapTotal; ring
  refine ⟨?_, ?_, ?_⟩
  · cases k
    · simp only [calcDynamicHours, serviceTiers]
      have e : ((25 : ℤ) : ℚ) = 25 := by norm_num
      rw [← e]
      exact pyRound1_le_intCast (min_le_right _ _)
    · simp only [calcDynamicHours, serviceTiers]
      have e : ((45 : ℤ) : ℚ) = 45 := by norm_num
      rw [← e]
      exact pyRound1_le_intCast (min_le_right _ _)
    · simp only [calcDynamicHours, serviceTiers]
      have e : ((65 : ℤ) : ℚ) = 65 := by norm_num
      rw [← e]
      exact pyRound1_le_intCast (min_le_right _ _)
  · intro h
    rw [horder] at h ⊢
    simp only [calcDynamicHours, specPreCapTotal] at h ⊢
    rw [max_eq_right (sub_nonneg.mpr (le_of_lt h))]
  · intro h
    rw [horder] at h
    simp only [calcDynamicHours, specPreCapTotal] at h ⊢
    rw [max_eq_left (by linarith [sub_nonpos.mpr h]), zero_mul, pyRound2_zero]

/-- C3: the pre-cap monthly total of the hour allocator is the sum of
immediate-fix hours over two months, the hours of ongoing tasks whose
frequency is monthly, and short/medium/long-term hours over twelve months;
an ongoing task with any other frequency contributes nothing. -/
theorem hour_allocation_components (tasks : TaskBuckets) (k : TierKey) :
    ((calcDynamicHours tasks (serviceTiers k)).monthly_total_hours
      = pyRound1 (min (specPreCapTotal tasks) (serviceTiers k).max_monthly_hours))
    ∧ ((calcDynamicHours tasks (serviceTiers k)).breakdown
      = { immediate_fixes_monthly := pyRound1
            ((tasks.immediate_fixes.map (fun t => t.estimated_hours)).sum / 2)
          ongoing_tasks := pyRound1
            (((tasks.ongoing.filter (fun t => t.frequency == some "monthly")).map
              (fun t => t.estimated_hours)).sum)
          additional_projects := pyRound1
            (((tasks.short_term.map (fun t => t.estimated_hours)).sum
              + (tasks.medium_term.map (fun t => t.estimated_hours)).sum
              + (tasks.long_term.map (fun t => t.estimated_hours)).sum) / 12) })
    ∧ (∀ t : TaskRecord, t.frequency ≠ some "monthly" →
        calcDynamicHours { tasks with ongoing := t :: tasks.ongoing }
            (serviceTiers k)
          = calcDynamicHours tasks (serviceTiers k)) := by
  refine ⟨?_, ?_, ?_⟩
  · have horder : specPreCapTotal tasks =
        ((tasks.ongoing.filter (fun t => t.frequency == some "monthly")).map
          (fun t => t.estimated_hours)).sum
        + ((tasks.short_term.map (fun t => t.estimated_hours)).sum
           + (tasks.medium_term.map (fun t => t.estimated_hours)).sum
           + (tasks.long_term.map (fun t => t.estimated_hours)).sum) / 12
        + (tasks.immediate_fixes.map (fun t => t.estimated_hours)).sum / 2 := by
      unfold specPreCapTotal; ring
    rw [horder]
    simp only [calcDynamicHours]
  · simp only [calcDynamicHours]
  · intro t ht
    have hb : (t.frequency == some "monthly") = false := by
      simpa using ht
    simp [calcDynamicHours, List.filter_cons, hb]

/-- Witness for C2: one 60-hour immediate-fix backlog on the Starter tier has
its capped total 25 above the base 20 hours, so the overage branch fires. -/
theorem hour_allocator_cap_and_overage_witness :
    (serviceTiers .starter).base_monthly_hours
      < min (specPreCapTotal overageWitnessTasks)
          (serviceTiers .starter).max_monthly_hours
    ∧ (calcDynamicHours overageWitnessTasks
        (serviceTiers .starter)).additional_monthly_cost
      = pyRound2 ((min (specPreCapTotal overageWitnessTasks)
            (serviceTiers .starter).max_monthly_hours
          - (serviceTiers .starter).base_monthly_hours)
          * (serviceTiers .starter).hourly_rate) := by
  have hlt : (serviceTiers .starter).base_monthly_hours
      < min (specPreCapTotal overageWitnessTasks)
          (serviceTiers .starter).max_monthly_hours := by
    norm_num [serviceTiers, specPreCapTotal, overageWitnessTasks, emptyBuckets,
      min_def]
  exact ⟨hlt, (hour_allocator_cap_and_overage .starter overageWitnessTasks).2.1 hlt⟩

/-- Witness for C3: prepending a quarterly ongoing task leaves the hour
allocation unchanged. -/
theorem hour_allocation_components_witness :
    calcDynamicHours
        { emptyBuckets with ongoing := quarterlyTask :: emptyBuckets.ongoing }
        (serviceTiers .starter)
      = calcDynamicHours emptyBuckets (serviceTiers .starter) :=
  (hour_allocation_components emptyBuckets .starter).2.2 quarterlyTask
    (by simp [quarterlyTask])

/-- C4: the task synthesizer sends every critical issue to immediate fixes
with deadline Week 2, every important issue to short term with deadline
Month 2, and every minor issue to medium term with deadline Month 4, carrying
over the issue type, estimated hours and affected-page count (and the
priority bucket literal matching the issue severity). -/
theorem tasks_follow_issue_severity (audit : ParseResult) (cfg : TierConfig) :
    ((generateSpecificTasks audit cfg).immediate_fixes.length
        = audit.critical_issues.length
      ∧ ∀ i ∈ audit.critical_issues,
        ({ task := i.task, type := i.type, priority := "critical"
           estimated_hours := i.estimated_hours, pages_affected := some i.count
           deadline := some "Week 2", frequency := none
           recurring := i.recurring } : TaskRecord)
          ∈ (generateSpecificTasks audit cfg).immediate_fixes)
    ∧ ((generateSpecificTasks audit cfg).short_term.length
        = audit.important_issues.length
      ∧ ∀ i ∈ audit.important_issues,
        ({ task := i.task, type := i.type, priority := "important"
           estimated_hours := i.estimated_hours, pages_affected := some i.count
           deadline := some "Month 2", frequency := none
           recurring := i.recurring } : TaskRecord)
          ∈ (generateSpecificTasks audit cfg).short_term)
    ∧ ((generateSpecificTasks audit cfg).medium_term.length
        = audit.minor_issues.length
      ∧ ∀ i ∈ audit.minor_issues,
        ({ task := i.task, type := i.type, priority := "minor"
           estimated_hours := i.estimated_hours, pages_affected := some i.count
           deadline := some "Month 4", frequency := none
           recurring := i.recurring } : TaskRecord)
          ∈ (generateSpecificTasks audit cfg).medium_term) := by
  refine ⟨⟨?_, fun i hi => ?_⟩, ⟨?_, fun i hi => ?_⟩, ⟨?_, fun i hi => ?_⟩⟩ <;>
    simp only [generateSpecificTasks, List.length_map]
  · exact List.mem_map_of_mem _ hi
  · exact List.mem_map_of_mem _ hi
  · exact List.mem_map_of_mem _ hi

/-- Witness for C4: the synthesized buckets of a one-issue-per-severity audit
on the Business tier contain the three mapped tasks. -/
theorem tasks_follow_issue_severity_witness :
    ({ task := "Add unique, optimized title tags to the following pages:"
       type := "technical", priority := "critical", estimated_hours := 51/100
       pages_affected := some 3, deadline := some "Week 2", frequency := none
       recurring := false } : TaskRecord)
      ∈ (generateSpecificTasks synthesisWitnessAudit
          (serviceTiers .business)).immediate_fixes :=
  (tasks_follow_issue_severity synthesisWitnessAudit (serviceTiers .business)).1.2
    { type := "technical", issue := "Missing Title Tags", count := 3
      priority := "critical", estimated_hours := 51/100
      task := "Add unique, optimized title tags to the following pages:"
      recurring := false }
    (by simp [synthesisWitnessAudit])

/-- C5: the business-attribute recommender (modelled from the spec) is total
over the free-form enumeration inputs, returning exactly one of the three
tiers for every combination, and a low-budget or small-business input never
yields Pro. -/
theorem business_recommender_total_and_bounded (s c b g : String) :
    (recommendFromBusiness s c b g = .starter
      ∨ recommendFromBusiness s c b g = .business
      ∨ recommendFromBusiness s c b g = .pro)
    ∧ ((b = "under_1000" ∨ s = "small_local") →
        recommendFromBusiness s c b g ≠ .pro) := by
  constructor
  · cases recommendFromBusiness s c b g <;> simp
  · intro h
    unfold recommendFromBusiness
    rw [if_pos h]
    simp

/-- Witness for C5: a small local business with a low budget is not
recommended Pro. -/
theorem business_recommender_total_and_bounded_witness :
    recommendFromBusiness "small_local" "low" "under_1000" "foundation"
      ≠ .pro :=
  (business_recommender_total_and_bounded "small_local" "low" "under_1000"
    "foundation").2 (Or.inl rfl)

theorem subtask_block_cover (p c n : ℕ) (hp : 0 < p)
    (hK1 : n ≤ c * p) :
    ∀ k, (1 ≤ k ∧ k ≤ n) ↔
      ∃! j, j < c ∧ j * p + 1 ≤ k ∧ k ≤ min ((j + 1) * p) n := by
  intro k
  constructor
  · rintro ⟨hk1, hkn⟩
    refine ⟨(k - 1) / p, ⟨?_, ?_, ?_⟩, ?_⟩
    · have hjp : (k - 1) / p * p ≤ k - 1 := Nat.div_mul_le_self _ _
      by_contra hjc
      push_neg at hjc
      have hcp : c * p ≤ (k - 1) / p * p := Nat.mul_le_mul_right p hjc
      omega
    · have hdm := Nat.div_add_mod (k - 1) p
      have hcm : (k - 1) / p * p = p * ((k - 1) / p) := Nat.mul_comm _ _
      omega
    · have hdm := Nat.div_add_mod (k - 1) p
      have hmod : (k - 1) % p < p := Nat.mod_lt _ hp
      have e : ((k - 1) / p + 1) * p = (k - 1) / p * p + p := Nat.succ_mul _ _
      have hcm : (k - 1) / p * p = p * ((k - 1) / p) := Nat.mul_comm _ _
      refine Nat.le_min.mpr ⟨?_, hkn⟩
      omega
    · rintro j' ⟨hj'c, hs, he⟩
      have he' : k ≤ (j' + 1) * p := le_trans he (min_le_left _ _)
      have e : (j' + 1) * p = j' * p + p := Nat.succ_mul _ _
      have lo : j' * p ≤ k - 1 := by omega
      have hi : k - 1 < (j' + 1) * p := by omega
      exact (Nat.div_eq_of_lt_le lo hi).symm
  · rintro ⟨j, ⟨hjc, hs, he⟩, -⟩
    exact ⟨by omega, le_trans he (min_le_right _ _)⟩

/-- C6 (amended: in the code only immediate-fix tasks are split into
subtasks, not every task): for an affected-item count n above the threshold
5, the exporter emits ceil(n / max(5, n div 3)) subtasks whose page ranges
start at 1, are contiguous and non-overlapping, end at n, and cover each of
the n items exactly once; each subtask row names the parent task and carries
the pro-rated per-subtask time estimate. -/
theorem immediate_subtask_partition (n : ℕ) (hn : 5 < n) :
    subtaskCountFor n = ⌈(n : ℚ) / (pagesPerSubtask n : ℚ)⌉₊
    ∧ subtaskStart n 0 = 1
    ∧ (∀ j, j + 1 < subtaskCountFor n →
        subtaskStart n (j + 1) = subtaskStop n j + 1)
    ∧ subtaskStop n (subtaskCountFor n - 1) = n
    ∧ (∀ k, (1 ≤ k ∧ k ≤ n) ↔
        ∃! j, j < subtaskCountFor n ∧ subtaskStart n j ≤ k
          ∧ k ≤ subtaskStop n j)
    ∧ (∀ (ctx : ExportCtx) (tier dom : String) (t : TaskRecord),
        t.pages_affected = some n →
        (immediateSubRows ctx tier dom t).length = subtaskCountFor n
        ∧ (immediateSubRows ctx tier dom t).map Row.parentTask
          = List.replicate (subtaskCountFor n)
              ((immediateMainRow ctx tier dom t).name)
        ∧ (immediateSubRows ctx tier dom t).map Row.timeEstimate
          = List.replicate (subtaskCountFor n)
              (toString (pyInt
                ((t.estimated_hours / (subtaskCountFor n : ℚ)) * 60)))) := by
  have hp5 : 5 ≤ pagesPerSubtask n := le_max_left _ _
  have hp : 0 < pagesPerSubtask n := by omega
  have hqr : pagesPerSubtask n * subtaskCountFor n
      + (n + pagesPerSubtask n - 1) % pagesPerSubtask n
      = n + pagesPerSubtask n - 1 := by
    unfold subtaskCountFor
    exact Nat.div_add_mod _ _
  have hr : (n + pagesPerSubtask n - 1) % pagesPerSubtask n
      < pagesPerSubtask n := Nat.mod_lt _ hp
  have hK1 : n ≤ subtaskCountFor n * pagesPerSubtask n := by
    rw [Nat.mul_comm]
    omega
  have hc1 : 1 ≤ subtaskCountFor n := by
    rcases Nat.eq_zero_or_pos (subtaskCountFor n) with h0 | h0
    · rw [h0, Nat.zero_mul] at hK1; omega
    · exact h0
  have hK2 : (subtaskCountFor n - 1) * pagesPerSubtask n < n := by
    have e : (subtaskCountFor n - 1) * pagesPerSubtask n
        = subtaskCountFor n * pagesPerSubtask n - pagesPerSubtask n := by
      rw [Nat.sub_mul, Nat.one_mul]
    rw [e, Nat.mul_comm]
    omega
  refine ⟨?_, by simp [subtaskStart], ?_, ?_, ?_, ?_⟩
  · have hpq : (0 : ℚ) < (pagesPerSubtask n : ℚ) := by exact_mod_cast hp
    refine ((Nat.ceil_eq_iff (by omega : subtaskCountFor n ≠ 0)).mpr
      ⟨?_, ?_⟩).symm
    · rw [lt_div_iff₀ hpq]
      exact_mod_cast hK2
    · rw [div_le_iff₀ hpq]
      exact_mod_cast hK1
  · intro j hj
    have h1 : (j + 1) * pagesPerSubtask n
        ≤ (subtaskCountFor n - 1) * pagesPerSubtask n :=
      Nat.mul_le_mul_right _ (by omega)
    have h2 : (j + 1) * pagesPerSubtask n < n := lt_of_le_of_lt h1 hK2
    simp only [subtaskStart, subtaskStop]
    rw [min_eq_left (le_of_lt h2)]
  · simp only [subtaskStop]
    have e : subtaskCountFor n - 1 + 1 = subtaskCountFor n := by omega
    rw [e, min_eq_right hK1]
  · simp only [subtaskStart, subtaskStop]
    exact subtask_block_cover (pagesPerSubtask n) (subtaskCountFor n) n hp hK1
  · intro ctx tier dom t ht
    simp only [immediateSubRows, ht, Option.getD_some]
    rw [if_pos hn]
    refine ⟨by simp, ?_, ?_⟩
    · rw [List.map_map]
      show (List.range (subtaskCountFor n)).map
          (fun _ => (immediateMainRow ctx tier dom t).name) = _
      rw [List.map_const', List.length_range]
    · rw [List.map_map]
      show (List.range (subtaskCountFor n)).map
          (fun _ => toString (pyInt
            ((t.estimated_hours / (subtaskCountFor n : ℚ)) * 60))) = _
      rw [List.map_const', List.length_range]

/-- Witness for C6: a 17-page immediate-fix task splits into
ceil(17 / max(5, 17 div 3)) = 4 subtask rows. -/
theorem immediate_subtask_partition_witness :
    subtaskCountFor 17 = ⌈(17 : ℚ) / (pagesPerSubtask 17 : ℚ)⌉₊
    ∧ (immediateSubRows fixedCtx "Business" "example.com"
        seventeenPageTask).length = subtaskCountFor 17
    ∧ subtaskCountFor 17 = 4 :=
  ⟨(immediate_subtask_partition 17 (by norm_num)).1,
   ((immediate_subtask_partition 17 (by norm_num)).2.2.2.2.2 fixedCtx
     "Business" "example.com" seventeenPageTask rfl).1,
   by decide⟩

/-- Counterexample to C6 as stated: a short-term task affecting 17 pages
(over the threshold 5) produces no subtask rows at all in the export, while
the claimed formula predicts 4. -/
theorem subtask_every_task_counterexample :
    (shortSeventeenPlan.audit_based_tasks.short_term.map
      (fun t => t.pages_affected.getD 0)) = [17]
    ∧ (exportClickupRows fixedCtx shortSeventeenPlan).countP
        (fun r => r.parentTask != "") = 0
    ∧ subtaskCountFor 17 = 4 := by
  refine ⟨rfl, ?_, by decide⟩
  decide

/-- C7 (amended: ongoing-bucket tasks are expanded per occurrence and skipped
when not recurring, a project-overview row is appended, and the Time Estimate
is the truncation int(hours times 60), not a rounding): every task in the
four non-ongoing buckets yields exactly one main row plus its subtask rows,
every ongoing task yields exactly its occurrence rows, one overview row is
appended, and every main task row carries Time Estimate int(hours times 60)
minutes. -/
theorem clickup_rows_per_task (ctx : ExportCtx) (p : Plan) :
    (exportClickupRows ctx p).length
      = ((p.audit_based_tasks.immediate_fixes.map (fun t =>
          1 + (immediateSubRows ctx p.client_info.tier
              (clientDomain p.client_info.url) t).length)).sum)
        + p.audit_based_tasks.short_term.length
        + p.audit_based_tasks.medium_term.length
        + p.audit_based_tasks.long_term.length
        + ((p.audit_based_tasks.ongoing.map (fun t =>
          (ongoingContribution ctx p.client_info.tier
              (clientDomain p.client_info.url) t).length)).sum)
        + 1
    ∧ (∀ (tier dom : String) (t : TaskRecord),
        (immediateMainRow ctx tier dom t).timeEstimate
          = toString (pyInt (t.estimated_hours * 60)))
    ∧ (∀ (tier dom : String) (t : TaskRecord),
        (shortTermRow ctx tier dom t).timeEstimate
          = toString (pyInt (t.estimated_hours * 60)))
    ∧ (∀ (tier dom : String) (t : TaskRecord),
        (mediumTermRow ctx tier dom t).timeEstimate
          = toString (pyInt (t.estimated_hours * 60)))
    ∧ (∀ (tier dom : String) (t : TaskRecord),
        (longTermRow ctx tier dom t).timeEstimate
          = toString (pyInt (t.estimated_hours * 60))) := by
  refine ⟨?_, fun _ _ _ => rfl, fun _ _ _ => rfl, fun _ _ _ => rfl,
    fun _ _ _ => rfl⟩
  simp only [exportClickupRows, List.length_append, List.length_map,
    length_flatMap_sum, List.length_singleton, List.length_cons]
  have e : (fun (t : TaskRecord) =>
      (immediateSubRows ctx p.client_info.tier
        (clientDomain p.client_info.url) t).length + 1)
      = (fun t => 1 + (immediateSubRows ctx p.client_info.tier
          (clientDomain p.client_info.url) t).length) :=
    funext fun t => Nat.add_comm _ _
  rw [e]
  simp

/-- Counterexample to C7 as stated: a task of 0.51 estimated hours is
exported with Time Estimate 30 (int truncation of 30.6 minutes), while
round(0.51 times 60) is 31. -/
theorem clickup_time_estimate_counterexample :
    (pointFiveOnePlan.audit_based_tasks.short_term.map
      (fun t => t.estimated_hours)) = [51/100]
    ∧ ((exportClickupRows fixedCtx pointFiveOnePlan).map
        Row.timeEstimate).head? = some "30"
    ∧ roundHalfEven ((51/100 : ℚ) * 60) = 31 := by
  refine ⟨rfl, ?_, ?_⟩
  · have h30 : pyInt ((51/100 : ℚ) * 60) = 30 := by norm_num [pyInt]
    have hstep : ((exportClickupRows fixedCtx pointFiveOnePlan).map
        Row.timeEstimate).head?
        = some (toString (pyInt ((51/100 : ℚ) * 60))) := rfl
    rw [hstep, h30]
    rfl
  · have he : (51/100 : ℚ) * 60 = 153/5 := by norm_num
    rw [he]
    norm_num [roundHalfEven]

/-- C8: for every audit response whose status code is not 20000 or in which
extracting tasks[0].result[0] fails, the parser returns a zero-issue result
carrying an error string instead of raising. -/
theorem parser_failure_yields_zero_issues (d : AuditData)
    (h : d.status_code ≠ 20000 ∨ extractFirstResult d = none) :
    (parseAuditResults d).total_issues = 0
    ∧ (parseAuditResults d).error.isSome := by
  unfold parseAuditResults
  by_cases hs : d.status_code ≠ 20000
  · rw [if_pos hs]
    exact ⟨rfl, rfl⟩
  · rw [if_neg hs]
    rcases h with h | h
    · exact absurd h hs
    · rw [h]
      exact ⟨rfl, rfl⟩

/-- Witness for C8: a status-40000 response parses to the zero-issue error
result. -/
theorem parser_failure_witness :
    (parseAuditResults failedStatusAudit).total_issues = 0
    ∧ (parseAuditResults failedStatusAudit).error.isSome :=
  parser_failure_yields_zero_issues failedStatusAudit (Or.inl (by decide))

/-- C9: plan generation is deterministic; with identical URL, tier and audit
data, two runs differ at most in the generation timestamp, which is exactly
the `plan_generated` field. -/
theorem plan_generation_deterministic (url : String) (tierOpt : Option TierKey)
    (analysis : AnalysisData) (t1 t2 : String) :
    scrubTimestamp (generateDataDrivenPlan t1 url tierOpt analysis)
      = scrubTimestamp (generateDataDrivenPlan t2 url tierOpt analysis)
    ∧ (generateDataDrivenPlan t1 url tierOpt analysis).client_info.plan_generated
      = t1 :=
  ⟨rfl, rfl⟩

/-- C10: in the CSV export, a recurring ongoing task with a frequency expands
to 12 rows when monthly, 4 when quarterly, 2 when bi-annual and 1 otherwise,
the first with status to do and the rest with status future; a non-recurring
ongoing task contributes no row. -/
theorem ongoing_recurring_expansion (ctx : ExportCtx) (tier dom : String)
    (t : TaskRecord) (f : String) (hf : t.frequency = some f) :
    (t.recurring = false → ongoingContribution ctx tier dom t = [])
    ∧ (t.recurring = true →
        (ongoingContribution ctx tier dom t).length
          = (if f = "monthly" then 12 else if f = "quarterly" then 4
             else if f = "bi-annually" then 2 else 1)
        ∧ (ongoingContribution ctx tier dom t).map Row.status
          = "to do" :: List.replicate
              ((if f = "monthly" then 12 else if f = "quarterly" then 4
                else if f = "bi-annually" then 2 else 1) - 1) "future") := by
  constructor
  · intro h
    simp [ongoingContribution, h]
  · intro h
    simp only [ongoingContribution, h, if_true]
    unfold ongoingRowsFor
    rw [hf]
    simp only [Option.getD_some]
    by_cases h1 : f = "monthly"
    · subst h1
      refine ⟨by simp [recurringInstances], ?_⟩
      rw [List.map_map]
      show (List.range (recurringInstances "monthly").1).map
        (fun i => if i = 0 then "to do" else "future") = _
      decide
    · by_cases h2 : f = "quarterly"
      · subst h2
        refine ⟨by simp [recurringInstances, h1], ?_⟩
        rw [List.map_map]
        show (List.range (recurringInstances "quarterly").1).map
          (fun i => if i = 0 then "to do" else "future") = _
        decide
      · by_cases h3 : f = "bi-annually"
        · subst h3
          refine ⟨by simp [recurringInstances, h1, h2], ?_⟩
          rw [List.map_map]
          show (List.range (recurringInstances "bi-annually").1).map
            (fun i => if i = 0 then "to do" else "future") = _
          decide
        · refine ⟨by simp [recurringInstances, h1, h2, h3], ?_⟩
          rw [List.map_map]
          have einst : (recurringInstances f).1 = 1 := by
            simp [recurringInstances, h1, h2, h3]
          rw [einst]
          show (List.range 1).map
            (fun i => if i = 0 then "to do" else "future") = _
          simp only [if_neg h1, if_neg h2, if_neg h3]
          decide

/-- Witness for C10: a recurring quarterly ongoing task expands to 4 rows. -/
theorem ongoing_recurring_expansion_witness :
    (ongoingContribution fixedCtx "Business" "example.com"
      quarterlyRecurringTask).length = 4 := by
  have h := ((ongoing_recurring_expansion fixedCtx "Business" "example.com"
    quarterlyRecurringTask "quarterly" rfl).2 rfl).1
  simpa using h
